import Mathlib

/-!
Shallow embedding of the TypeOneZen rule-based BG monitor (`monitor.py`) and
proofs about its alert-engine core.

Modelling conventions:
- Timestamps are rational numbers of minutes on a single UTC timeline.  The
  source stores ISO-8601 strings and compares them both lexicographically (in
  SQL) and chronologically (via `datetime`); for well-formed UTC strings the
  two orders agree, so a single linear time axis is faithful.
- Glucose values and insulin units are rationals (the source uses Python
  ints/floats; every claim is about order comparisons and exact sums, where
  the rationals model the intended real-number arithmetic).
- `round(x, n)` in Python rounds half to even; `pyRoundZ` below implements
  that tie-breaking exactly on rationals.
- SQL `ORDER BY timestamp` is modelled by an insertion sort on the row list;
  `LIMIT n` by `List.take n`.
- Alert message strings are built only for human display and no property here
  concerns their text, so rule evaluators emit a fixed `""` message; all other
  fields (rule name, dedup key, sent flag, triggered_at) are modelled exactly.
- The per-rule `try/except` in `main` is modelled by rule evaluators of type
  `Store → Except String (List Alert)`: a Python exception is an `.error`.
- `ny_now().hour` (the America/New_York wall-clock hour) is passed to
  `rule_overnight_high` as an explicit parameter, since timezone conversion
  lives in an external library.
-/

/- Batteries marks the rational-number operations `@[irreducible]`, which blocks
`decide`-style evaluation of the embedded functions on concrete inputs; the
kernel itself reduces them fine, so they are made semireducible for this file. -/
attribute [local semireducible] Rat.add Rat.mul Rat.sub Rat.inv Rat.ofScientific

/-- A row of the `glucose_readings` table (the columns `monitor.py` reads). -/
structure Reading where
  glucose_mg_dl : ℚ
  timestamp : ℚ
  trend : Option String
  deriving DecidableEq

instance : Inhabited Reading := ⟨⟨0, 0, none⟩⟩

/-- A row of the `insulin_doses` table (the columns `monitor.py` reads). -/
structure Dose where
  timestamp : ℚ
  units : ℚ
  dose_type : String
  deriving DecidableEq

/-- A row of the `alert_log` table (`ensure_tables`, monitor.py lines 375-388). -/
structure AlertRecord where
  rule_name : String
  triggered_at : ℚ
  message : String
  sent : Bool
  dedup_key : Option ℚ
  deriving DecidableEq

instance : Inhabited AlertRecord := ⟨⟨"", 0, "", false, none⟩⟩

/-- A row of the `alert_snoozes` table (`ensure_tables`, monitor.py lines 390-398). -/
structure Snooze where
  rule_name : String
  snoozed_at : ℚ
  expires_at : ℚ
  reason : Option String
  deriving DecidableEq

/-- A candidate alert as produced by the rule evaluators: the dict
`\x7b"rule": ..., "message": ..., "dedup_key": ...\x7d` (message text elided, see header). -/
structure Alert where
  rule : String
  message : String
  dedup_key : Option ℚ
  deriving DecidableEq

/-- The SQLite database state as seen by `monitor.py`. -/
structure Store where
  glucose_readings : List Reading
  insulin_doses : List Dose
  alert_log : List AlertRecord
  alert_snoozes : List Snooze
  deriving DecidableEq

/-- Python `round` to an integer: nearest integer, ties to even. -/
def pyRoundZ (q : ℚ) : ℤ :=
  let f := q.floor
  let r := q - (f : ℚ)
  if r < 1/2 then f
  else if 1/2 < r then f + 1
  else if f % 2 = 0 then f else f + 1

/-- Python `round(x, 2)`. -/
def pyRound2 (q : ℚ) : ℚ := (pyRoundZ (q * 100) : ℚ) / 100

/-- Python `round(x, 1)`. -/
def pyRound1 (q : ℚ) : ℚ := (pyRoundZ (q * 10) : ℚ) / 10

/-- SQL `ORDER BY timestamp DESC` on glucose readings. -/
def sortReadingsDesc (rs : List Reading) : List Reading :=
  List.insertionSort (fun a b => b.timestamp ≤ a.timestamp) rs

/-- SQL `ORDER BY timestamp ASC` on glucose readings. -/
def sortReadingsAsc (rs : List Reading) : List Reading :=
  List.insertionSort (fun a b => a.timestamp ≤ b.timestamp) rs

/-- SQL `ORDER BY triggered_at ASC` on alert-log rows. -/
def sortRecordsAsc (l : List AlertRecord) : List AlertRecord :=
  List.insertionSort (fun a b => a.triggered_at ≤ b.triggered_at) l

/-- Constant `AIT_MINUTES = 180` (monitor.py line 49). -/
def AIT_MINUTES : ℚ := 180

/-- Constant `SCHEDULE_DEFAULT = [0, 30, 60, 60, 60]` (monitor.py line 55). -/
def SCHEDULE_DEFAULT : List ℚ := [0, 30, 60, 60, 60]

/-- Constant `SCHEDULE_URGENT = [0, 15, 15, 15, 15]` (monitor.py line 56). -/
def SCHEDULE_URGENT : List ℚ := [0, 15, 15, 15, 15]

/-- The `TREND_RATES` dict (monitor.py lines 59-67), as a partial lookup. -/
def TREND_RATES (t : String) : Option ℚ :=
  if t = "rising quickly" then some 30
  else if t = "rising" then some 15
  else if t = "rising slightly" then some 7
  else if t = "steady" then some 0
  else if t = "falling slightly" then some (-7)
  else if t = "falling" then some (-15)
  else if t = "falling quickly" then some (-30)
  else none

/-- The `TREND_ARROWS` dict with its `"→"` default (monitor.py lines 69-77, 170). -/
def TREND_ARROWS (t : String) : String :=
  if t = "rising quickly" then "⇈"
  else if t = "rising" then "↑"
  else if t = "rising slightly" then "↗"
  else if t = "steady" then "→"
  else if t = "falling slightly" then "↘"
  else if t = "falling" then "↓"
  else if t = "falling quickly" then "⇊"
  else "→"

/-- The description assigned from a rate (monitor.py lines 171-176 and 190-195):
rising when rate > 5, falling when rate < -5, else stable. -/
def trend_description (rate : ℚ) : String :=
  if rate > 5 then "rising" else if rate < -5 then "falling" else "stable"

/-- Arrow assigned in the two-point fallback (monitor.py lines 190-195; the
default `"→"` from line 151 survives when the rate is between -5 and 5). -/
def fallback_arrow (rate : ℚ) : String :=
  if rate > 5 then "↗" else if rate < -5 then "↘" else "→"

/-- Output of `get_bg_trend` (monitor.py lines 133-199). -/
structure Trend where
  rate_per_15 : ℚ
  arrow : String
  description : String
  current_bg : Option ℚ
  current_ts : Option ℚ
  dexcom_trend : Option String
  deriving DecidableEq

/-- The two-point fallback of `get_bg_trend` (monitor.py lines 179-199):
`readings = newest :: rest` is the DESC-sorted top-3 list; when it has at
least two entries and the oldest-to-newest span is positive, the rate is the
two-point slope scaled to 15 minutes (stored rounded to one decimal, while
arrow and description are chosen from the unrounded rate). -/
def trend_fallback (newest : Reading) (rest : List Reading) : Trend :=
  let base : Trend :=
    ⟨0, "→", "stable", some newest.glucose_mg_dl, some newest.timestamp, newest.trend⟩
  match rest with
  | [] => base
  | _ :: _ =>
    let oldest := rest.getLastD newest
    let span := newest.timestamp - oldest.timestamp
    if span > 0 then
      let rate := (newest.glucose_mg_dl - oldest.glucose_mg_dl) / span * 15
      ⟨pyRound1 rate, fallback_arrow rate, trend_description rate,
        some newest.glucose_mg_dl, some newest.timestamp, newest.trend⟩
    else base

/-- Function `get_bg_trend` (monitor.py lines 133-199).  Queries the three most recent
readings; if the newest carries a recognised Dexcom trend label the fixed
table gives the rate (an empty-string label is falsy in Python and also
absent from the table, so `Option.some ""` correctly falls through), else
the two-point fallback runs. -/
def get_bg_trend (glucose_readings : List Reading) : Trend :=
  match (sortReadingsDesc glucose_readings).take 3 with
  | [] => ⟨0, "→", "stable", none, none, none⟩
  | newest :: rest =>
    match newest.trend with
    | some t =>
      match TREND_RATES t with
      | some rate =>
        ⟨rate, TREND_ARROWS t, trend_description rate,
          some newest.glucose_mg_dl, some newest.timestamp, newest.trend⟩
      | none => trend_fallback newest rest
    | none => trend_fallback newest rest

/-- Function `estimate_iob` (monitor.py lines 107-130): linear-decay IOB over
bolus/correction doses fetched with `timestamp > now - AIT` (the SQL keeps
no upper time bound), summed and rounded to two decimals. -/
def estimate_iob (insulin_doses : List Dose) (now : ℚ) : ℚ :=
  let cutoff := now - AIT_MINUTES
  let doses := insulin_doses.filter
    (fun d => decide (d.timestamp > cutoff ∧ (d.dose_type = "bolus" ∨ d.dose_type = "correction")))
  pyRound2 (doses.foldl
    (fun total d => total + d.units * max 0 (1 - (now - d.timestamp) / AIT_MINUTES)) 0)

/-- Function `get_alert_history` (monitor.py lines 239-261): alert-log rows for a rule
within the last `hours` hours, optionally restricted to one dedup key,
ascending by `triggered_at`. -/
def get_alert_history (log : List AlertRecord) (rule_name : String) (hours : ℚ)
    (dedup_key : Option ℚ) (now : ℚ) : List AlertRecord :=
  let cutoff := now - 60 * hours
  sortRecordsAsc (log.filter (fun r =>
    decide (r.rule_name = rule_name ∧ r.triggered_at > cutoff ∧
      (∀ k, dedup_key = some k → r.dedup_key = some k))))

/-- Function `should_escalate` (monitor.py lines 264-285).  For an empty history fire
at level 0; otherwise look up the wait at index `min n (len - 1)` and fire
iff the minutes elapsed since the last history entry reach it.  (For an
empty schedule and non-empty history the source would raise `IndexError`;
claims only concern non-empty schedules, where `List.getD` agrees with the
Python indexing.) -/
def should_escalate (now : ℚ) (alert_history : List AlertRecord)
    (schedule : List ℚ) : Bool × Nat :=
  match alert_history.getLast? with
  | none => (true, 0)
  | some last =>
    let n := alert_history.length
    let wait_minutes := schedule.getD (min n (schedule.length - 1)) 0
    (decide (now - last.triggered_at ≥ wait_minutes), n)

/-- Function `is_snoozed` (monitor.py lines 288-297): some snooze row names the rule
exactly or is the `ALL` wildcard and expires strictly after now. -/
def is_snoozed (snoozes : List Snooze) (rule_name : String) (now : ℚ) : Bool :=
  snoozes.any (fun s =>
    decide ((s.rule_name = rule_name ∨ s.rule_name = "ALL") ∧ s.expires_at > now))

/-- Function `was_recently_alerted` (monitor.py lines 402-410): the rule has an
alert-log row with `triggered_at > now - hours`. -/
def was_recently_alerted (log : List AlertRecord) (rule_name : String)
    (hours : ℚ) (now : ℚ) : Bool :=
  log.any (fun r => decide (r.rule_name = rule_name ∧ r.triggered_at > now - 60 * hours))

/-- Function `rule_rapid_drop` (monitor.py lines 632-682): 2-hour cooldown, then over
the last six readings (newest first) require at least two readings, an
oldest-to-newest span of at least 10 minutes and a drop of more than
30 mg/dL. -/
def rule_rapid_drop (st : Store) (now : ℚ) : List Alert :=
  if was_recently_alerted st.alert_log "RAPID_DROP" 2 now then []
  else
    let readings := (sortReadingsDesc st.glucose_readings).take 6
    if readings.length < 2 then []
    else
      let current := readings.headD default
      let oldest := readings.getLastD default
      if current.timestamp - oldest.timestamp < 10 then []
      else if oldest.glucose_mg_dl - current.glucose_mg_dl > 30 then
        [⟨"RAPID_DROP", "", none⟩]
      else []

/-- The consecutive-minutes-above-160 scan of `rule_overnight_high`
(monitor.py lines 758-782): walk the ascending readings tracking the start
of the current high run; a run ends at the first reading at or below 160
(measured to that reading's timestamp) or, if still open, at the final
reading's timestamp. -/
def overnight_run_minutes (readings : List Reading) : ℚ :=
  let scanned := readings.foldl
    (fun (acc : Option ℚ × ℚ) (r : Reading) =>
      if r.glucose_mg_dl > (160 : ℚ) then
        match acc.1 with
        | none => ((some r.timestamp, acc.2) : Option ℚ × ℚ)
        | some hs => (some hs, acc.2)
      else
        match acc.1 with
        | none => (none, acc.2)
        | some hs => (none, max acc.2 (r.timestamp - hs)))
    ((none, 0) : Option ℚ × ℚ)
  match scanned.1, readings.getLast? with
  | some hs, some lastR => max scanned.2 (lastR.timestamp - hs)
  | _, _ => scanned.2

/-- Function `rule_overnight_high` (monitor.py lines 735-834): only between 23:00 and
07:00 NY time, at least six readings in the last 90 minutes, longest high
run above 60 minutes, current reading still above 160, then the default
escalation schedule decides. -/
def rule_overnight_high (st : Store) (now : ℚ) (ny_hour : ℕ) : List Alert :=
  if 7 ≤ ny_hour ∧ ny_hour < 23 then []
  else
    let readings := sortReadingsAsc
      (st.glucose_readings.filter (fun r => decide (r.timestamp > now - 90)))
    if readings.length < 6 then []
    else if overnight_run_minutes readings ≤ 60 then []
    else
      match (sortReadingsDesc st.glucose_readings).head? with
      | none => []
      | some current =>
        if current.glucose_mg_dl ≤ 160 then []
        else
          let fl := should_escalate now
            (get_alert_history st.alert_log "OVERNIGHT_HIGH" 6 none now) SCHEDULE_DEFAULT
          if fl.1 then [⟨"OVERNIGHT_HIGH", "", none⟩] else []

/-- Function `rule_low_warning` (monitor.py lines 837-930): suppression when the
current value is at least 80 with a stable or rising direction, then the
three trigger conditions, the urgent escalation schedule over a 2-hour
lookback, and the level-positive stabilization re-check. -/
def rule_low_warning (st : Store) (now : ℚ) : List Alert :=
  let trend := get_bg_trend st.glucose_readings
  match trend.current_bg with
  | none => []
  | some current_bg =>
    let rate := trend.rate_per_15
    let iob := estimate_iob st.insulin_doses now
    if current_bg ≥ 80 ∧ (trend.description = "stable" ∨ trend.description = "rising") then []
    else if ¬(current_bg + rate < 80
        ∨ (current_bg < 90 ∧ iob > 0.5 ∧ rate < -5)
        ∨ current_bg < 80) then []
    else
      let fl := should_escalate now
        (get_alert_history st.alert_log "LOW_WARNING" 2 none now) SCHEDULE_URGENT
      if fl.1 = false then []
      else if fl.2 > 0 ∧ current_bg ≥ 80
          ∧ (trend.description = "stable" ∨ trend.description = "rising") then []
      else [⟨"LOW_WARNING", "", none⟩]

/-- Function `handle_snooze` (monitor.py lines 935-945): insert a snooze row expiring
`duration_minutes` after now with reason `'manual'`.  The CLI passes any
integer `--snooze-duration` (argparse `type=int`, default 120) with no sign
validation. -/
def handle_snooze (st : Store) (rule_name : String) (duration_minutes : ℤ)
    (now : ℚ) : Store :=
  { st with alert_snoozes :=
      st.alert_snoozes ++ [⟨rule_name, now, now + (duration_minutes : ℚ), some "manual"⟩] }

/-- The alerts a rule evaluation contributes: a Python exception (`.error`)
contributes nothing (monitor.py lines 1042-1046). -/
def okAlerts (e : Except String (List Alert)) : List Alert :=
  match e with
  | .ok alerts => alerts
  | .error _ => []

/-- One iteration of the rule loop in `main` (monitor.py lines 1026-1046):
a snoozed rule is skipped outright, otherwise the evaluator runs inside the
per-rule exception boundary. -/
def rule_contrib (st : Store) (now : ℚ)
    (p : String × (Store → Except String (List Alert))) : List Alert :=
  if is_snoozed st.alert_snoozes p.1 now then [] else okAlerts (p.2 st)

/-- The full rule loop of `main` (monitor.py lines 1013-1046), accumulating
`all_alerts` across the rule list in order. -/
def collect_alerts (rules : List (String × (Store → Except String (List Alert))))
    (st : Store) (now : ℚ) : List Alert :=
  rules.foldl (fun acc p => acc ++ rule_contrib st now p) []

/-- What the dispatch loop of `main` produced: the alert-log rows it inserted,
the messages the transport accepted, and the `sent_count` it printed. -/
structure DispatchResult where
  new_records : List AlertRecord
  sent_messages : List String
  sent_count : Nat
  deriving DecidableEq

/-- The outcome flag of one transport attempt. -/
def sendFlag (e : Except String Unit) : Bool :=
  match e with
  | .ok _ => true
  | .error _ => false

/-- The dispatch loop of `main` (monitor.py lines 1052-1077).  In dry-run
mode a candidate is only printed (and counted); otherwise `send_imsg` is
attempted and an alert-log row is committed per candidate — `sent = 1` and
the count advances on success, `sent = 0` on a transport exception, and the
loop always proceeds to the next candidate. -/
def dispatch (dryRun : Bool) (send : String → Except String Unit) (now : ℚ) :
    List Alert → DispatchResult
  | [] => ⟨[], [], 0⟩
  | a :: rest =>
    if dryRun then
      let r := dispatch dryRun send now rest
      ⟨r.new_records, r.sent_messages, r.sent_count + 1⟩
    else
      match send a.message with
      | .ok _ =>
        let r := dispatch dryRun send now rest
        ⟨⟨a.rule, now, a.message, true, a.dedup_key⟩ :: r.new_records,
          a.message :: r.sent_messages, r.sent_count + 1⟩
      | .error _ =>
        let r := dispatch dryRun send now rest
        ⟨⟨a.rule, now, a.message, false, a.dedup_key⟩ :: r.new_records,
          r.sent_messages, r.sent_count⟩

/-- The run-all mode of `main` (monitor.py lines 1013-1083): collect the
candidates through the snooze gate and per-rule boundaries, dispatch them,
and append the audit rows to `alert_log`. -/
def runAll (dryRun : Bool) (send : String → Except String Unit)
    (rules : List (String × (Store → Except String (List Alert))))
    (st : Store) (now : ℚ) : Store × DispatchResult :=
  let res := dispatch dryRun send now (collect_alerts rules st now)
  ({ st with alert_log := st.alert_log ++ res.new_records }, res)

/-- The alert-log row the dispatch loop inserts for one candidate (monitor.py
lines 1064-1067 on success, 1073-1076 on a transport failure). -/
def dispatchRecord (send : String → Except String Unit) (now : ℚ) (a : Alert) :
    AlertRecord :=
  ⟨a.rule, now, a.message, sendFlag (send a.message), a.dedup_key⟩

/-- The IOB formula as the specification words it: bolus/correction doses
whose timestamp lies within the AIT window before now (here read as the
closed interval from `now - AIT` to `now`), each contributing
`units * max 0 (1 - elapsed / AIT)`, summed and rounded to two decimals. -/
def iob_spec_window (insulin_doses : List Dose) (now : ℚ) : ℚ :=
  pyRound2 (((insulin_doses.filter (fun d =>
    decide ((d.dose_type = "bolus" ∨ d.dose_type = "correction")
      ∧ now - AIT_MINUTES ≤ d.timestamp ∧ d.timestamp ≤ now))).map
    (fun d => d.units * max 0 (1 - (now - d.timestamp) / AIT_MINUTES))).sum)

/-- The IOB formula with the window amended to match the code: every
bolus/correction dose contributes `units * max 0 (1 - elapsed / AIT)`
(which is `0` for doses at least AIT old, while a future-dated dose
contributes more than its units), summed and rounded to two decimals. -/
def iob_claim_amended (insulin_doses : List Dose) (now : ℚ) : ℚ :=
  pyRound2 (((insulin_doses.filter (fun d =>
    decide (d.dose_type = "bolus" ∨ d.dose_type = "correction"))).map
    (fun d => d.units * max 0 (1 - (now - d.timestamp) / AIT_MINUTES))).sum)

/-- Concrete fixture: a two-entry SUSTAINED_HIGH history (ascending by
`triggered_at`), the last entry 40 minutes before the instant 100. -/
def histTwo : List AlertRecord :=
  [⟨"SUSTAINED_HIGH", 20, "", true, none⟩, ⟨"SUSTAINED_HIGH", 60, "", true, none⟩]

/- ── Helper lemmas ─────────────────────────────────────────────────── -/

theorem foldl_add_eq_sum {α : Type} (f : α → ℚ) :
    ∀ (l : List α) (a : ℚ), List.foldl (fun t d => t + f d) a l = a + (l.map f).sum
  | [], a => by simp
  | d :: l, a => by
    rw [List.foldl_cons, foldl_add_eq_sum f l (a + f d), List.map_cons, List.sum_cons]
    ring

theorem iob_term_of_old (now : ℚ) (d : Dose) (h : d.timestamp ≤ now - AIT_MINUTES) :
    d.units * max 0 (1 - (now - d.timestamp) / AIT_MINUTES) = 0 := by
  have hait : (0 : ℚ) < AIT_MINUTES := by norm_num [AIT_MINUTES]
  have h1 : 1 - (now - d.timestamp) / AIT_MINUTES ≤ 0 := by
    rw [sub_nonpos, le_div_iff₀ hait]
    nlinarith
  rw [max_eq_left h1, mul_zero]

theorem iob_sum_drop_window (now : ℚ) :
    ∀ l : List Dose,
      ((l.filter (fun d =>
          decide (d.timestamp > now - AIT_MINUTES
            ∧ (d.dose_type = "bolus" ∨ d.dose_type = "correction")))).map
        (fun d => d.units * max 0 (1 - (now - d.timestamp) / AIT_MINUTES))).sum
      = ((l.filter (fun d =>
          decide (d.dose_type = "bolus" ∨ d.dose_type = "correction"))).map
        (fun d => d.units * max 0 (1 - (now - d.timestamp) / AIT_MINUTES))).sum
  | [] => by simp
  | d :: l => by
    by_cases hty : d.dose_type = "bolus" ∨ d.dose_type = "correction"
    · by_cases htime : d.timestamp > now - AIT_MINUTES
      · rw [List.filter_cons, List.filter_cons,
          if_pos (by simp [htime, hty]), if_pos (by simp [hty]),
          List.map_cons, List.map_cons, List.sum_cons, List.sum_cons,
          iob_sum_drop_window now l]
      · have hold : d.timestamp ≤ now - AIT_MINUTES := le_of_not_lt htime
        rw [List.filter_cons, List.filter_cons]
        rw [if_neg (by simp [htime]), if_pos (by simp [hty])]
        rw [List.map_cons, List.sum_cons, iob_term_of_old now d hold, zero_add]
        exact iob_sum_drop_window now l
    · rw [List.filter_cons, List.filter_cons]
      rw [if_neg (by simp [hty]), if_neg (by simp [hty])]
      exact iob_sum_drop_window now l

theorem dispatch_live_records (send : String → Except String Unit) (now : ℚ) :
    ∀ alerts : List Alert,
      (dispatch false send now alerts).new_records = alerts.map (dispatchRecord send now)
  | [] => by simp [dispatch]
  | a :: rest => by
    cases h : send a.message with
    | ok u =>
      simp [dispatch, h, dispatch_live_records send now rest, dispatchRecord, sendFlag]
    | error e =>
      simp [dispatch, h, dispatch_live_records send now rest, dispatchRecord, sendFlag]

theorem dispatch_dry (send : String → Except String Unit) (now : ℚ) :
    ∀ alerts : List Alert,
      dispatch true send now alerts = ⟨[], [], alerts.length⟩
  | [] => by simp [dispatch]
  | a :: rest => by
    simp [dispatch, dispatch_dry send now rest]

theorem collect_alerts_foldl_acc (st : Store) (now : ℚ) :
    ∀ (rules : List (String × (Store → Except String (List Alert))))
      (acc : List Alert),
      List.foldl (fun acc p => acc ++ rule_contrib st now p) acc rules
        = acc ++ collect_alerts rules st now
  | [], acc => by simp [collect_alerts]
  | p :: rules, acc => by
    rw [collect_alerts, List.foldl_cons, List.foldl_cons,
      collect_alerts_foldl_acc st now rules (acc ++ rule_contrib st now p),
      collect_alerts_foldl_acc st now rules ([] ++ rule_contrib st now p)]
    simp

theorem collect_alerts_cons (st : Store) (now : ℚ)
    (p : String × (Store → Except String (List Alert)))
    (rules : List (String × (Store → Except String (List Alert)))) :
    collect_alerts (p :: rules) st now
      = rule_contrib st now p ++ collect_alerts rules st now := by
  rw [collect_alerts, List.foldl_cons, collect_alerts_foldl_acc st now rules]
  simp

theorem collect_alerts_append (st : Store) (now : ℚ)
    (rules1 rules2 : List (String × (Store → Except String (List Alert)))) :
    collect_alerts (rules1 ++ rules2) st now
      = collect_alerts rules1 st now ++ collect_alerts rules2 st now := by
  induction rules1 with
  | nil => simp [collect_alerts]
  | cons p rules ih =>
    rw [List.cons_append, collect_alerts_cons, collect_alerts_cons, ih,
      List.append_assoc]

theorem mem_collect_alerts (st : Store) (now : ℚ)
    (rules : List (String × (Store → Except String (List Alert))))
    (a : Alert) (ha : a ∈ collect_alerts rules st now) :
    ∃ p ∈ rules, a ∈ rule_contrib st now p := by
  induction rules with
  | nil => simp [collect_alerts] at ha
  | cons p rules ih =>
    rw [collect_alerts_cons, List.mem_append] at ha
    rcases ha with h | h
    · exact ⟨p, List.mem_cons_self p rules, h⟩
    · obtain ⟨q, hq, hmem⟩ := ih h
      exact ⟨q, List.mem_cons_of_mem p hq, hmem⟩

/- ── Claim theorems ────────────────────────────────────────────────── -/

/-- C1: for every non-empty escalation schedule `S` and every alert history
`H`, `should_escalate` returns level `|H|` (unclamped), and fires exactly
when `H` is empty or the minutes elapsed from the last entry's
`triggered_at` to now are at least `S[min |H| (|S|-1)]`. -/
theorem should_escalate_spec (now : ℚ) (H : List AlertRecord) (S : List ℚ)
    (_hS : S ≠ []) :
    (should_escalate now H S).2 = H.length ∧
    ((should_escalate now H S).1 = true ↔
      (H = [] ∨ now - (H.getLastD default).triggered_at
        ≥ S.getD (min H.length (S.length - 1)) 0)) := by
  cases hL : H.getLast? with
  | none =>
    have hH : H = [] := List.getLast?_eq_none_iff.mp hL
    subst hH
    simp [should_escalate]
  | some last =>
    have hne : H ≠ [] := by
      intro h
      subst h
      simp at hL
    have hlast : H.getLastD default = last := by
      rw [List.getLastD_eq_getLast?, hL, Option.getD_some]
    have hval : should_escalate now H S
        = (decide (now - last.triggered_at
            ≥ S.getD (min H.length (S.length - 1)) 0), H.length) := by
      simp [should_escalate, hL]
    rw [hval, hlast]
    simp [decide_eq_true_iff, hne]

/-- C1 witness: schedule `[0, 30, 60, 60, 60]`, two prior alerts with the
last one 40 minutes before now: required wait `S[2] = 60`, so no fire, at
level 2. -/
theorem should_escalate_spec_witness :
    (should_escalate 100 histTwo SCHEDULE_DEFAULT).2 = histTwo.length ∧
    ((should_escalate 100 histTwo SCHEDULE_DEFAULT).1 = true ↔
      (histTwo = [] ∨ 100 - (histTwo.getLastD default).triggered_at
        ≥ SCHEDULE_DEFAULT.getD (min histTwo.length (SCHEDULE_DEFAULT.length - 1)) 0)) :=
  should_escalate_spec 100 histTwo SCHEDULE_DEFAULT (by decide)

/-- C2 counterexample: a single 1-unit correction dose dated 180 minutes in
the future.  The SQL filter `timestamp > now - AIT` keeps it, and its
"remaining fraction" is `max 0 (1 - (-180)/180) = 2`, so the code reports
2.0 units of IOB, while the claimed within-the-window-before-now sum is 0. -/
theorem estimate_iob_window_counterexample :
    estimate_iob [⟨1180, 1, "correction"⟩] 1000 = 2
    ∧ iob_spec_window [⟨1180, 1, "correction"⟩] 1000 = 0
    ∧ estimate_iob [⟨1180, 1, "correction"⟩] 1000
        ≠ iob_spec_window [⟨1180, 1, "correction"⟩] 1000 :=
  ⟨by decide, by decide, by decide⟩

/-- C2 (amended): the IOB estimate equals the sum over all bolus/correction
doses of `units * max 0 (1 - elapsed/AIT)` rounded to two decimals — the
`max 0` factor zeroes every dose at least AIT old, so the only departure
from the claimed AIT window is that a future-dated dose also contributes
(by more than its units); basal/meal doses and doses with no remaining
fraction never contribute (so no qualifying doses gives exactly 0), and a
single 2.0-unit correction dose given exactly 90 minutes ago yields 1.0. -/
theorem estimate_iob_amended (insulin_doses : List Dose) (now : ℚ) :
    estimate_iob insulin_doses now = iob_claim_amended insulin_doses now
    ∧ ((∀ d ∈ insulin_doses, d.dose_type = "basal" ∨ d.dose_type = "meal"
          ∨ d.timestamp ≤ now - AIT_MINUTES) → estimate_iob insulin_doses now = 0)
    ∧ estimate_iob [⟨910, 2, "correction"⟩] 1000 = 1 := by
  have hmain : estimate_iob insulin_doses now = iob_claim_amended insulin_doses now := by
    simp only [estimate_iob, iob_claim_amended]
    rw [foldl_add_eq_sum, zero_add]
    exact congrArg pyRound2 (iob_sum_drop_window now insulin_doses)
  refine ⟨hmain, ?_, by decide⟩
  intro hall
  rw [hmain]
  simp only [iob_claim_amended]
  have hz : ((insulin_doses.filter (fun d =>
      decide (d.dose_type = "bolus" ∨ d.dose_type = "correction"))).map
      (fun d => d.units * max 0 (1 - (now - d.timestamp) / AIT_MINUTES))).sum = 0 := by
    apply List.sum_eq_zero
    intro x hx
    rw [List.mem_map] at hx
    obtain ⟨d, hd, rfl⟩ := hx
    rw [List.mem_filter, decide_eq_true_eq] at hd
    obtain ⟨hmem, hty⟩ := hd
    rcases hall d hmem with h | h | h
    · rcases hty with h2 | h2 <;> rw [h2] at h <;> exact absurd h (by decide)
    · rcases hty with h2 | h2 <;> rw [h2] at h <;> exact absurd h (by decide)
    · exact iob_term_of_old now d h
  rw [hz]
  decide

/-- C2 witness for the amended claim: an expired bolus (5 hours old) and a
basal dose together give exactly 0 IOB. -/
theorem estimate_iob_amended_witness :
    estimate_iob [⟨700, 3, "bolus"⟩, ⟨900, 1, "basal"⟩] 1000 = 0 :=
  (estimate_iob_amended [⟨700, 3, "bolus"⟩, ⟨900, 1, "basal"⟩] 1000).2.1 (by decide)

/-- C3: a rule evaluator that raises is caught at the per-rule boundary — it
contributes zero candidates, every other rule's contribution is unchanged,
and dispatch proceeds on exactly the candidates of the rules that
succeeded. -/
theorem rule_failure_isolation
    (rules1 rules2 : List (String × (Store → Except String (List Alert))))
    (nm : String) (fn : Store → Except String (List Alert)) (e : String)
    (send : String → Except String Unit) (st : Store) (now : ℚ)
    (hf : fn st = .error e) :
    collect_alerts (rules1 ++ (nm, fn) :: rules2) st now
      = collect_alerts rules1 st now ++ collect_alerts rules2 st now
    ∧ (runAll false send (rules1 ++ (nm, fn) :: rules2) st now).2
      = dispatch false send now
          (collect_alerts rules1 st now ++ collect_alerts rules2 st now) := by
  have hcontrib : rule_contrib st now (nm, fn) = [] := by
    by_cases hs : is_snoozed st.alert_snoozes nm now <;>
      simp [rule_contrib, okAlerts, hf, hs]
  have h1 : collect_alerts (rules1 ++ (nm, fn) :: rules2) st now
      = collect_alerts rules1 st now ++ collect_alerts rules2 st now := by
    rw [collect_alerts_append, collect_alerts_cons, hcontrib, List.nil_append]
  exact ⟨h1, by rw [runAll, h1]⟩

/-- C3 witness: three rules of which the middle one raises; the other two
rules' candidates survive and are dispatched. -/
theorem rule_failure_isolation_witness :
    collect_alerts
        ([("SUSTAINED_HIGH", fun _ => .ok [⟨"SUSTAINED_HIGH", "", none⟩])]
          ++ ("RAPID_DROP", fun _ => .error "boom")
          :: [("LOW_WARNING", fun _ => .ok [⟨"LOW_WARNING", "", none⟩])])
        ⟨[], [], [], []⟩ 0
      = collect_alerts [("SUSTAINED_HIGH", fun _ => .ok [⟨"SUSTAINED_HIGH", "", none⟩])]
          ⟨[], [], [], []⟩ 0
        ++ collect_alerts [("LOW_WARNING", fun _ => .ok [⟨"LOW_WARNING", "", none⟩])]
          ⟨[], [], [], []⟩ 0
    ∧ (runAll false (fun _ => .ok ())
        ([("SUSTAINED_HIGH", fun _ => .ok [⟨"SUSTAINED_HIGH", "", none⟩])]
          ++ ("RAPID_DROP", fun _ => .error "boom")
          :: [("LOW_WARNING", fun _ => .ok [⟨"LOW_WARNING", "", none⟩])])
        ⟨[], [], [], []⟩ 0).2
      = dispatch false (fun _ => .ok ()) 0
          (collect_alerts [("SUSTAINED_HIGH", fun _ => .ok [⟨"SUSTAINED_HIGH", "", none⟩])]
            ⟨[], [], [], []⟩ 0
          ++ collect_alerts [("LOW_WARNING", fun _ => .ok [⟨"LOW_WARNING", "", none⟩])]
            ⟨[], [], [], []⟩ 0) :=
  rule_failure_isolation _ _ "RAPID_DROP" _ "boom" _ ⟨[], [], [], []⟩ 0 rfl

/-- C6: for every transport and every candidate list, live dispatch writes
exactly one alert-log row per candidate, in order, copying the candidate's
rule, message and dedup key, with `sent` true exactly when the transport
succeeded — so a transport failure is caught at the per-candidate boundary,
the failed candidate is still recorded with `sent = false` (and therefore
still counts toward escalation history), no retry happens, and dispatch
proceeds to the next candidate. -/
theorem dispatch_failure_audit (send : String → Except String Unit) (now : ℚ)
    (alerts : List Alert) :
    (dispatch false send now alerts).new_records
      = alerts.map (dispatchRecord send now) :=
  dispatch_live_records send now alerts

/-- C8: a dry run leaves the alert log exactly as it was, inserts no rows
and sends nothing. -/
theorem dry_run_frame (send : String → Except String Unit)
    (rules : List (String × (Store → Except String (List Alert))))
    (st : Store) (now : ℚ) :
    (runAll true send rules st now).1.alert_log = st.alert_log
    ∧ (runAll true send rules st now).2.new_records = []
    ∧ (runAll true send rules st now).2.sent_messages = [] := by
  rw [runAll, dispatch_dry]
  simp

/-- C4: whenever the Trend Estimator reports a current value of at least 80
with a stable or rising direction, the low-warning rule returns no
candidates, regardless of the insulin doses (hence of IOB) and of the rate:
the suppression check runs before any trigger condition. -/
theorem low_warning_hard_suppression (st : Store) (now : ℚ) (bg : ℚ)
    (hbg : (get_bg_trend st.glucose_readings).current_bg = some bg)
    (h80 : bg ≥ 80)
    (hdir : (get_bg_trend st.glucose_readings).description = "stable"
      ∨ (get_bg_trend st.glucose_readings).description = "rising") :
    rule_low_warning st now = [] := by
  unfold rule_low_warning
  rcases hdir with h | h <;>
  · simp only [hbg]
    simp [h80, h]

/-- C4 witness: current reading 85 with the Dexcom "rising" label and 1.0u
of IOB on board never fires. -/
theorem low_warning_hard_suppression_witness :
    rule_low_warning ⟨[⟨85, 50, some "rising"⟩], [⟨910, 2, "correction"⟩], [], []⟩ 1000
      = [] :=
  low_warning_hard_suppression
    ⟨[⟨85, 50, some "rising"⟩], [⟨910, 2, "correction"⟩], [], []⟩ 1000 85
    (by decide) (by decide) (Or.inr (by decide))

/-- C7: while any RAPID_DROP alert-log row is less than two hours old the
rapid-drop rule returns no candidates whatever the readings; outside that
cooldown it fires — producing exactly one RAPID_DROP candidate — precisely
when the last-6 window has at least two readings, its oldest and newest are
at least 10 minutes apart, and the drop from oldest to newest exceeds
30 mg/dL. -/
theorem rapid_drop_cooldown (st : Store) (now : ℚ) :
    ((∃ rec ∈ st.alert_log, rec.rule_name = "RAPID_DROP"
        ∧ rec.triggered_at > now - 120) →
      rule_rapid_drop st now = [])
    ∧ (¬(∃ rec ∈ st.alert_log, rec.rule_name = "RAPID_DROP"
        ∧ rec.triggered_at > now - 120) →
      (rule_rapid_drop st now = [⟨"RAPID_DROP", "", none⟩] ↔
        (2 ≤ ((sortReadingsDesc st.glucose_readings).take 6).length
         ∧ 10 ≤ (((sortReadingsDesc st.glucose_readings).take 6).headD default).timestamp
             - (((sortReadingsDesc st.glucose_readings).take 6).getLastD default).timestamp
         ∧ 30 < (((sortReadingsDesc st.glucose_readings).take 6).getLastD default).glucose_mg_dl
             - (((sortReadingsDesc st.glucose_readings).take 6).headD default).glucose_mg_dl))) := by
  have h120 : now - 60 * 2 = now - 120 := by ring
  have hiff : was_recently_alerted st.alert_log "RAPID_DROP" 2 now = true ↔
      (∃ rec ∈ st.alert_log, rec.rule_name = "RAPID_DROP"
        ∧ rec.triggered_at > now - 120) := by
    rw [was_recently_alerted, List.any_eq_true]
    simp only [decide_eq_true_iff, h120]
  constructor
  · intro hex
    unfold rule_rapid_drop
    rw [if_pos (hiff.mpr hex)]
  · intro hnex
    have hcool : ¬ (was_recently_alerted st.alert_log "RAPID_DROP" 2 now = true) :=
      fun h => hnex (hiff.mp h)
    unfold rule_rapid_drop
    rw [if_neg hcool]
    simp only []
    split_ifs with h1 h2 h3
    · constructor
      · intro h
        exact absurd h (by simp)
      · rintro ⟨h2le, -, -⟩
        omega
    · constructor
      · intro h
        exact absurd h (by simp)
      · rintro ⟨-, hspan, -⟩
        linarith
    · constructor
      · intro _
        refine ⟨by omega, by linarith, h3⟩
      · intro _
        rfl
    · constructor
      · intro h
        exact absurd h (by simp)
      · rintro ⟨-, -, hdrop⟩
        linarith

/-- C7 witness: a 40 mg/dL drop over 15 minutes is suppressed by a
RAPID_DROP record 50 minutes old, while the spec's 180→145 over 20 minutes
example fires with a clean log. -/
theorem rapid_drop_cooldown_witness :
    rule_rapid_drop
        ⟨[⟨140, 955, none⟩, ⟨180, 940, none⟩], [],
          [⟨"RAPID_DROP", 950, "", true, none⟩], []⟩ 1000 = []
    ∧ rule_rapid_drop ⟨[⟨180, 0, none⟩, ⟨145, 20, none⟩], [], [], []⟩ 20
        = [⟨"RAPID_DROP", "", none⟩] :=
  ⟨(rapid_drop_cooldown
      ⟨[⟨140, 955, none⟩, ⟨180, 940, none⟩], [],
        [⟨"RAPID_DROP", 950, "", true, none⟩], []⟩ 1000).1 (by decide),
    ((rapid_drop_cooldown ⟨[⟨180, 0, none⟩, ⟨145, 20, none⟩], [], [], []⟩ 20).2
      (by decide)).mpr (by decide)⟩

/-- C9 counterexample: the CLI accepts `--snooze-duration 0` (argparse
`type=int` with no sign check), and `handle_snooze` then inserts a row with
`expires_at = snoozed_at`, violating the claimed strict invariant. -/
theorem handle_snooze_zero_counterexample :
    ((handle_snooze ⟨[], [], [], []⟩ "ALL" 0 100).alert_snoozes.getLastD
        ⟨"", 0, 0, none⟩).expires_at
      = ((handle_snooze ⟨[], [], [], []⟩ "ALL" 0 100).alert_snoozes.getLastD
        ⟨"", 0, 0, none⟩).snoozed_at
    ∧ ¬(((handle_snooze ⟨[], [], [], []⟩ "ALL" 0 100).alert_snoozes.getLastD
        ⟨"", 0, 0, none⟩).expires_at
      > ((handle_snooze ⟨[], [], [], []⟩ "ALL" 0 100).alert_snoozes.getLastD
        ⟨"", 0, 0, none⟩).snoozed_at) :=
  ⟨by decide, by decide⟩

/-- C9 (amended): for every strictly positive duration, the single row the
snooze operation appends satisfies `expires_at > snoozed_at`; zero or
negative durations — which the CLI also accepts — violate it. -/
theorem handle_snooze_invariant (st : Store) (rule_name : String)
    (duration_minutes : ℤ) (now : ℚ) (hd : 0 < duration_minutes) :
    (handle_snooze st rule_name duration_minutes now).alert_snoozes
      = st.alert_snoozes
        ++ [⟨rule_name, now, now + (duration_minutes : ℚ), some "manual"⟩]
    ∧ ∀ s ∈ ((handle_snooze st rule_name duration_minutes now).alert_snoozes.drop
          st.alert_snoozes.length),
        s.expires_at > s.snoozed_at := by
  refine ⟨rfl, ?_⟩
  intro s hs
  have hrow : (handle_snooze st rule_name duration_minutes now).alert_snoozes
      = st.alert_snoozes
        ++ [⟨rule_name, now, now + (duration_minutes : ℚ), some "manual"⟩] := rfl
  rw [hrow, List.drop_left] at hs
  rw [List.mem_singleton] at hs
  subst hs
  have : (0 : ℚ) < (duration_minutes : ℚ) := by exact_mod_cast hd
  simp only [Snooze.mk.injEq]
  linarith

/-- C9 witness: the default 120-minute snooze on ALL satisfies the
invariant. -/
theorem handle_snooze_invariant_witness :
    (handle_snooze ⟨[], [], [], []⟩ "ALL" 120 100).alert_snoozes
      = ([] : List Snooze) ++ [⟨"ALL", 100, 100 + ((120 : ℤ) : ℚ), some "manual"⟩]
    ∧ ∀ s ∈ ((handle_snooze ⟨[], [], [], []⟩ "ALL" 120 100).alert_snoozes.drop
          ([] : List Snooze).length),
        s.expires_at > s.snoozed_at :=
  handle_snooze_invariant ⟨[], [], [], []⟩ "ALL" 120 100 (by decide)

/-- C10: with fewer than six readings in the 90-minute window the
overnight-high rule returns no candidates, whatever the hour and however
high and long the available readings run. -/
theorem overnight_high_min_readings (st : Store) (now : ℚ) (ny_hour : ℕ)
    (h : (st.glucose_readings.filter
        (fun r => decide (r.timestamp > now - 90))).length < 6) :
    rule_overnight_high st now ny_hour = [] := by
  unfold rule_overnight_high
  by_cases hh : 7 ≤ ny_hour ∧ ny_hour < 23
  · rw [if_pos hh]
  · rw [if_neg hh]
    have hlen : (sortReadingsAsc (st.glucose_readings.filter
        (fun r => decide (r.timestamp > now - 90)))).length < 6 := by
      rw [sortReadingsAsc, List.length_insertionSort]
      exact h
    simp [hlen]

/-- C10 witness: at 02:00 NY with five readings all above 160 mg/dL spanning
80 minutes — a contiguous high run longer than 60 minutes — the rule still
returns nothing, because only five readings sit in the window. -/
theorem overnight_high_min_readings_witness :
    rule_overnight_high
        ⟨[⟨170, 925, none⟩, ⟨175, 945, none⟩, ⟨180, 965, none⟩,
          ⟨178, 985, none⟩, ⟨185, 1005, none⟩], [], [], []⟩ 1005 2 = [] :=
  overnight_high_min_readings
    ⟨[⟨170, 925, none⟩, ⟨175, 945, none⟩, ⟨180, 965, none⟩,
      ⟨178, 985, none⟩, ⟨185, 1005, none⟩], [], [], []⟩ 1005 2 (by decide)

theorem get_alert_history_append_irrelevant (old new : List AlertRecord)
    (r : String) (hours : ℚ) (dk : Option ℚ) (now : ℚ)
    (h : ∀ rec ∈ new, rec.rule_name ≠ r) :
    get_alert_history (old ++ new) r hours dk now
      = get_alert_history old r hours dk now := by
  unfold get_alert_history
  simp only [List.filter_append]
  have hnil : new.filter (fun rec =>
      decide (rec.rule_name = r ∧ rec.triggered_at > now - 60 * hours ∧
        (∀ k, dk = some k → rec.dedup_key = some k))) = [] := by
    rw [List.filter_eq_nil_iff]
    intro rec hrec
    simp only [decide_eq_true_eq, not_and]
    intro hcon
    exact absurd hcon (h rec hrec)
  rw [hnil, List.append_nil]

/-- C5: the snooze gate.  (i) `is_snoozed` holds exactly when some snooze row
names the rule exactly or is the ALL wildcard and expires strictly after
now; (ii) a snooze expiring exactly at now is not active; (iii) a snoozed
rule's evaluation is skipped — it contributes nothing whatever its evaluator
would return; (iv) a non-snoozed rule is evaluated normally; (v) provided
every evaluator tags its candidates with its own rule name (as all the
source rules do), a cycle in which rule `r` is snoozed appends no alert-log
row for `r`, so `r`'s escalation history is unchanged by the snoozed
cycle. -/
theorem snooze_gate_spec (st : Store) (now : ℚ) (r nm : String)
    (sl : List Snooze) (s' : Snooze)
    (rules : List (String × (Store → Except String (List Alert))))
    (send : String → Except String Unit) (hours : ℚ) (dk : Option ℚ)
    (htag : ∀ p ∈ rules, ∀ a ∈ okAlerts (p.2 st), a.rule = p.1)
    (hsn : is_snoozed st.alert_snoozes r now = true)
    (hexp : s'.expires_at = now) :
    (is_snoozed sl nm now = true ↔
      ∃ s ∈ sl, (s.rule_name = nm ∨ s.rule_name = "ALL") ∧ s.expires_at > now)
    ∧ is_snoozed [s'] nm now = false
    ∧ (∀ fn, rule_contrib st now (r, fn) = [])
    ∧ (∀ nm2 fn, is_snoozed st.alert_snoozes nm2 now = false →
        rule_contrib st now (nm2, fn) = okAlerts (fn st))
    ∧ get_alert_history ((runAll false send rules st now).1.alert_log) r hours dk now
      = get_alert_history st.alert_log r hours dk now := by
  refine ⟨?_, ?_, ?_, ?_, ?_⟩
  · rw [is_snoozed, List.any_eq_true]
    simp only [decide_eq_true_eq]
  · simp [is_snoozed, hexp]
  · intro fn
    simp [rule_contrib, hsn]
  · intro nm2 fn h
    simp [rule_contrib, h]
  · have hnotr : ∀ rec ∈ (dispatch false send now
        (collect_alerts rules st now)).new_records, rec.rule_name ≠ r := by
      intro rec hrec
      rw [dispatch_live_records, List.mem_map] at hrec
      obtain ⟨a, ha, rfl⟩ := hrec
      obtain ⟨p, hp, hcontrib⟩ := mem_collect_alerts st now rules a ha
      by_cases hsp : is_snoozed st.alert_snoozes p.1 now = true
      · rw [rule_contrib, if_pos hsp] at hcontrib
        simp at hcontrib
      · rw [rule_contrib, if_neg hsp] at hcontrib
        have hra : a.rule = p.1 := htag p hp a hcontrib
        show (dispatchRecord send now a).rule_name ≠ r
        rw [dispatchRecord]
        simp only []
        rw [hra]
        intro hpr
        rw [hpr] at hsp
        exact hsp hsn
    have hlog : (runAll false send rules st now).1.alert_log
        = st.alert_log
          ++ (dispatch false send now (collect_alerts rules st now)).new_records := rfl
    rw [hlog]
    exact get_alert_history_append_irrelevant _ _ r hours dk now hnotr

/-- C5 witness: SUSTAINED_HIGH snoozed until minute 2000; at minute 1000 the
cycle runs two rules and SUSTAINED_HIGH's six-hour history is exactly what
it was before, while a snooze expiring exactly at minute 1000 is inactive. -/
theorem snooze_gate_spec_witness :
    (is_snoozed [⟨"SUSTAINED_HIGH", 900, 2000, some "manual"⟩] "SUSTAINED_HIGH" 1000 = true ↔
      ∃ s ∈ [⟨"SUSTAINED_HIGH", 900, 2000, some "manual"⟩],
        (Snooze.rule_name s = "SUSTAINED_HIGH" ∨ Snooze.rule_name s = "ALL")
          ∧ Snooze.expires_at s > 1000)
    ∧ is_snoozed [⟨"LOW_WARNING", 0, 1000, none⟩] "SUSTAINED_HIGH" 1000 = false
    ∧ (∀ fn, rule_contrib
        ⟨[], [], [⟨"SUSTAINED_HIGH", 500, "old", true, none⟩],
          [⟨"SUSTAINED_HIGH", 900, 2000, some "manual"⟩]⟩ 1000
        ("SUSTAINED_HIGH", fn) = [])
    ∧ (∀ nm2 fn, is_snoozed
          [⟨"SUSTAINED_HIGH", 900, 2000, some "manual"⟩] nm2 1000 = false →
        rule_contrib
          ⟨[], [], [⟨"SUSTAINED_HIGH", 500, "old", true, none⟩],
            [⟨"SUSTAINED_HIGH", 900, 2000, some "manual"⟩]⟩ 1000
          (nm2, fn)
          = okAlerts (fn ⟨[], [], [⟨"SUSTAINED_HIGH", 500, "old", true, none⟩],
              [⟨"SUSTAINED_HIGH", 900, 2000, some "manual"⟩]⟩))
    ∧ get_alert_history
        ((runAll false (fun _ => .ok ())
          [("SUSTAINED_HIGH", fun _ => .ok [⟨"SUSTAINED_HIGH", "", none⟩]),
            ("RAPID_DROP", fun _ => .ok [⟨"RAPID_DROP", "", none⟩])]
          ⟨[], [], [⟨"SUSTAINED_HIGH", 500, "old", true, none⟩],
            [⟨"SUSTAINED_HIGH", 900, 2000, some "manual"⟩]⟩ 1000).1.alert_log)
        "SUSTAINED_HIGH" 6 none 1000
      = get_alert_history [⟨"SUSTAINED_HIGH", 500, "old", true, none⟩]
          "SUSTAINED_HIGH" 6 none 1000 :=
  snooze_gate_spec
    ⟨[], [], [⟨"SUSTAINED_HIGH", 500, "old", true, none⟩],
      [⟨"SUSTAINED_HIGH", 900, 2000, some "manual"⟩]⟩
    1000 "SUSTAINED_HIGH" "SUSTAINED_HIGH"
    [⟨"SUSTAINED_HIGH", 900, 2000, some "manual"⟩]
    ⟨"LOW_WARNING", 0, 1000, none⟩
    [("SUSTAINED_HIGH", fun _ => .ok [⟨"SUSTAINED_HIGH", "", none⟩]),
      ("RAPID_DROP", fun _ => .ok [⟨"RAPID_DROP", "", none⟩])]
    (fun _ => .ok ()) 6 none
    (by decide) (by decide) (by decide)
